import Mathlib

/-!
Verification of `geo_data_validation` (src/validator.py).

The repository is a single-script USPS address-validation pipeline:
`get_usps_token` exchanges client credentials for a bearer token,
`validate_usps_address` validates one address record against the remote
service and converts every failure into an error-shaped result dictionary,
`load_input_csv` checks the user-supplied filename, and `main` batches the
records (BATCH_SIZE = 2), sleeps between batches, and writes the output
table, exiting 1 when the token or input cannot be obtained or when no
record validated.

The embedding below models Python dictionaries whose keys may be absent as
structures of `Option` fields, the remote HTTP world as explicit outcome
values fed to the functions, raised exceptions as `Except.error`, and the
observable effects of `main` (exit code, sleeps, output written) as a trace
structure computed from an environment.
-/

/-- Python truthiness of an optional string: `None` and `""` are falsy,
every other string is truthy.  Used wherever the source writes
`if value` / `value and value2` on strings fetched with `.get`. -/
def truthy : Option String → Bool
  | none => false
  | some s => !s.isEmpty

/-- An input record as handed to `validate_usps_address`: a Python dict
whose five expected keys may each be absent (`none` = key missing, so
indexing raises `KeyError`). -/
structure Record where
  KEY : Option String
  STREET : Option String
  CITY : Option String
  STATE : Option String
  POST_CODE : Option String
deriving Repr, DecidableEq

/-- The record carries all five keys used by `validate_usps_address`. -/
def wellFormed (r : Record) : Prop :=
  r.KEY.isSome = true ∧ r.STREET.isSome = true ∧ r.CITY.isSome = true ∧
    r.STATE.isSome = true ∧ r.POST_CODE.isSome = true

instance (r : Record) : Decidable (wellFormed r) := by
  unfold wellFormed
  infer_instance

/-- The nested `address` object of a successful USPS response
(src/validator.py lines 94-101); each field may be absent. -/
structure UspsAddress where
  streetAddress : Option String
  city : Option String
  state : Option String
  ZIPCode : Option String
  ZIPPlus4 : Option String
deriving Repr, DecidableEq

/-- A successful (HTTP 2xx, parseable JSON object) response body; the
`address` key itself may be absent, in which case the source substitutes
`{}` (line 94). -/
structure UspsResponse where
  address : Option UspsAddress
deriving Repr, DecidableEq

/-- The failure classes of the remote validation call, matching the three
`except` arms of `validate_usps_address` (lines 119-173):
`requests.exceptions.HTTPError` raised by `raise_for_status`,
any other `requests.exceptions.RequestException` (network/connection
failures, JSON decoding errors), and any other `Exception`. -/
inductive RemoteFailure where
  | httpError (status : Nat) (reason url : String)
  | requestError (msg : String)
  | otherError (msg : String)
deriving Repr, DecidableEq

/-- What the remote world does for one validation request. -/
inductive Outcome where
  | success (resp : UspsResponse)
  | failure (f : RemoteFailure)
deriving Repr, DecidableEq

/-- `str(e)` for an `HTTPError` produced by `response.raise_for_status()`:
the requests library renders it as
"STATUS Client Error: REASON for url: URL" (4xx) or
"STATUS Server Error: REASON for url: URL" (5xx). -/
def httpErrorStr (status : Nat) (reason url : String) : String :=
  toString status ++ " " ++
    (if status < 500 then "Client Error" else "Server Error") ++ ": " ++
    reason ++ " for url: " ++ url

/-- `str(e)` of the exception captured by the matching `except` arm. -/
def failureStr : RemoteFailure → String
  | .httpError s reason url => httpErrorStr s reason url
  | .requestError msg => msg
  | .otherError msg => msg

/-- The Python runtime renders the exception as a non-empty string.  For
`HTTPError` this is unconditional (requests builds the message itself);
for the other classes it is a property of the concrete exception. -/
def renderedNonempty : RemoteFailure → Prop
  | .httpError _ _ _ => True
  | .requestError msg => msg ≠ ""
  | .otherError msg => msg ≠ ""

instance (f : RemoteFailure) : Decidable (renderedNonempty f) := by
  cases f <;> (unfold renderedNonempty; infer_instance)

/-- The result dictionary built by `validate_usps_address` (either arm).
`error_message` is `none` exactly when the success-path dictionary (which
has no such key) was returned. -/
structure ResultDict where
  KEY : String
  original_STREET : String
  original_CITY : String
  original_STATE : String
  original_POST_CODE : String
  validated_STREET : Option String
  validated_CITY : Option String
  validated_STATE : Option String
  validated_ZIPCode : Option String
  validated_ZIPPlus4 : Option String
  full_zip4 : String
  is_valid : Bool
  error_message : Option String
deriving Repr, DecidableEq

/-- Line 115: `f"{zip_code}-{zip_plus_4}" if zip_code and zip_plus_4 else
(zip_code if zip_code else "N/A")`. -/
def fullZip4 (zc zp : Option String) : String :=
  if truthy zc && truthy zp then zc.getD "" ++ "-" ++ zp.getD ""
  else if truthy zc then zc.getD "" else "N/A"

/-- The empty address object substituted for an absent `address` key. -/
def emptyAddress : UspsAddress :=
  { streetAddress := none, city := none, state := none,
    ZIPCode := none, ZIPPlus4 := none }

/-- The success-path dictionary (lines 104-117). -/
def successDict (r : Record) (resp : UspsResponse) : ResultDict :=
  let a := resp.address.getD emptyAddress
  { KEY := r.KEY.getD ""
    original_STREET := r.STREET.getD ""
    original_CITY := r.CITY.getD ""
    original_STATE := r.STATE.getD ""
    original_POST_CODE := r.POST_CODE.getD ""
    validated_STREET := a.streetAddress
    validated_CITY := a.city
    validated_STATE := a.state
    validated_ZIPCode := a.ZIPCode
    validated_ZIPPlus4 := a.ZIPPlus4
    full_zip4 := fullZip4 a.ZIPCode a.ZIPPlus4
    is_valid := truthy a.streetAddress && truthy a.city &&
      truthy a.state && truthy a.ZIPCode
    error_message := none }

/-- The error dictionary built identically by all three `except` arms
(lines 125-139, 142-156, 159-173). -/
def errorDict (r : Record) (msg : String) : ResultDict :=
  { KEY := r.KEY.getD ""
    original_STREET := r.STREET.getD ""
    original_CITY := r.CITY.getD ""
    original_STATE := r.STATE.getD ""
    original_POST_CODE := r.POST_CODE.getD ""
    validated_STREET := none
    validated_CITY := none
    validated_STATE := none
    validated_ZIPCode := none
    validated_ZIPPlus4 := none
    full_zip4 := "ERROR"
    is_valid := false
    error_message := some msg }

/-- A Python exception escaping one of the modelled functions. -/
inductive PyError where
  | keyError (key : String)
  | valueError (msg : String)
  | httpError (msg : String)
  | requestError (msg : String)
deriving Repr, DecidableEq

/-- `validate_usps_address` (lines 69-173).  The `params` dictionary
(lines 76-81) indexes `STREET`, `CITY`, `STATE`, `POST_CODE` before the
`try` block, so a missing one of those raises `KeyError` to the caller.
Inside the `try`, both the success dictionary (line 105) and every
`except` arm (lines 126, 143, 160) index `KEY`, and a `KeyError` raised
there propagates out of the handler, so a record without `KEY` also makes
the function raise for every remote outcome.  With all five keys present
the function returns a dictionary for every outcome. -/
def validate (r : Record) (o : Outcome) : Except PyError ResultDict :=
  match r.STREET, r.CITY, r.STATE, r.POST_CODE with
  | some _, some _, some _, some _ =>
    match r.KEY with
    | none => .error (.keyError "KEY")
    | some _ =>
      match o with
      | .success resp => .ok (successDict r resp)
      | .failure f => .ok (errorDict r (failureStr f))
  | none, _, _, _ => .error (.keyError "STREET")
  | _, none, _, _ => .error (.keyError "CITY")
  | _, _, none, _ => .error (.keyError "STATE")
  | _, _, _, none => .error (.keyError "POST_CODE")

/-- The dictionary returned for a well-formed record (proof helper; tied
to `validate` by `validate_eq_ok`). -/
def validateOk (r : Record) (o : Outcome) : ResultDict :=
  match o with
  | .success resp => successDict r resp
  | .failure f => errorDict r (failureStr f)

theorem validate_eq_ok (r : Record) (o : Outcome) (h : wellFormed r) :
    validate r o = .ok (validateOk r o) := by
  obtain ⟨h1, h2, h3, h4, h5⟩ := h
  cases hk : r.KEY <;> rw [hk] at h1 <;> try simp at h1
  cases hs : r.STREET <;> rw [hs] at h2 <;> try simp at h2
  cases hc : r.CITY <;> rw [hc] at h3 <;> try simp at h3
  cases ht : r.STATE <;> rw [ht] at h4 <;> try simp at h4
  cases hp : r.POST_CODE <;> rw [hp] at h5 <;> try simp at h5
  cases o <;> simp [validate, validateOk, hk, hs, hc, ht, hp]

/-- The inner `for _, row in batch.iterrows()` loop (lines 244-248) over
one batch: validates records in order, appending results; a raised
exception aborts the loop (and the whole program). -/
def processBatch : List (Record × Outcome) → List ResultDict × Option PyError
  | [] => ([], none)
  | p :: rest =>
    match validate p.1 p.2 with
    | .error e => ([], some e)
    | .ok d =>
      let r := processBatch rest
      (d :: r.1, r.2)

/-- Observable outcome of the batching loop of `main` (lines 239-253):
the accumulated results, the sizes of the fully processed groups, the
number of `time.sleep` calls, and the exception (if any) that escaped. -/
structure BatchResult where
  results : List ResultDict
  groupSizes : List Nat
  sleeps : Nat
  err : Option PyError
deriving Repr, DecidableEq

/-- One iteration of `for i in range(0, num_rows, BATCH_SIZE)` with
`BATCH_SIZE = B' + 1`: `batch = df.iloc[i:i+BATCH_SIZE]` is the next
`B' + 1` rows, and `if i + BATCH_SIZE < num_rows: time.sleep(DELAY)`
sleeps exactly when rows remain after this batch. -/
def runGo (B' : Nat) : List (Record × Outcome) → BatchResult
  | [] => { results := [], groupSizes := [], sleeps := 0, err := none }
  | p :: rows =>
    let batch := p :: rows.take B'
    let rest := rows.drop B'
    match processBatch batch with
    | (ds, some e) => { results := ds, groupSizes := [], sleeps := 0, err := some e }
    | (ds, none) =>
      let r := runGo B' rest
      { results := ds ++ r.results
        groupSizes := batch.length :: r.groupSizes
        sleeps := (if rest.isEmpty then 0 else 1) + r.sleeps
        err := r.err }
termination_by rows => rows.length
decreasing_by
  simp only [List.length_drop, List.length_cons]
  omega

/-- The batching loop for an arbitrary `BATCH_SIZE`.  Python's
`range(0, n, 0)` raises `ValueError`, so batch size 0 is an error. -/
def runBatches (B : Nat) (rows : List (Record × Outcome)) : BatchResult :=
  match B with
  | 0 => { results := [], groupSizes := [], sleeps := 0,
           err := some (.valueError "range() arg 3 must not be zero") }
  | B' + 1 => runGo B' rows

/-- The contiguous groups `df.iloc[i:i+BATCH_SIZE]` for batch size
`B' + 1`, in input order. -/
def chunksGo (B' : Nat) : List α → List (List α)
  | [] => []
  | x :: xs => (x :: xs.take B') :: chunksGo B' (xs.drop B')
termination_by l => l.length
decreasing_by
  simp only [List.length_drop, List.length_cons]
  omega

/-- Body of the token endpoint's response once received. -/
inductive TokenBody where
  /-- `response.json()` raises (body is not parseable as JSON). -/
  | malformed (msg : String)
  /-- A parsed JSON object; `token_data.get('access_token')`. -/
  | parsed (access_token : Option String)
deriving Repr, DecidableEq

/-- What the remote token endpoint does for the one `requests.post`. -/
inductive TokenOutcome where
  /-- `requests.post` itself raises (network/connection failure). -/
  | networkError (msg : String)
  /-- A response with this HTTP status was received. -/
  | response (status : Nat) (reason url : String) (body : TokenBody)
deriving Repr, DecidableEq

/-- `get_usps_token` (lines 28-65).  `raise_for_status` raises
`HTTPError` for statuses 400-599; an unparseable body raises from
`response.json()`; a missing or falsy (empty) `access_token` raises
`ValueError` (lines 48-49).  Every `except` arm re-raises (lines 54-65),
so each failure propagates to the caller. -/
def get_usps_token (o : TokenOutcome) : Except PyError String :=
  match o with
  | .networkError msg => .error (.requestError msg)
  | .response status reason url body =>
    if 400 ≤ status ∧ status ≤ 599 then
      .error (.httpError (httpErrorStr status reason url))
    else
      match body with
      | .malformed msg => .error (.requestError msg)
      | .parsed tok =>
        if truthy tok then .ok (tok.getD "")
        else .error (.valueError "Access token not found in response")

/-- Python `str.lower`, modelled character-wise. -/
def pyLower (s : List Char) : List Char := s.map Char.toLower

/-- Python `str.strip`: drop whitespace from both ends. -/
def pyStrip (s : List Char) : List Char :=
  ((s.dropWhile Char.isWhitespace).reverse.dropWhile Char.isWhitespace).reverse

/-- `pathlib.Path(filename).name`: the part after the last `/`. -/
def basename (s : List Char) : List Char :=
  (s.reverse.takeWhile (fun c => c != '/')).reverse

/-- Python `str.endswith`, on character lists. -/
def endsWith (l e : List Char) : Bool := e == l.drop (l.length - e.length)

/-- The rejected spreadsheet extensions (line 189). -/
def excelExts : List (List Char) :=
  [".xlsx".toList, ".xlsm".toList, ".xls".toList, ".xltx".toList, ".xltm".toList]

/-- Diagnostic printed for a missing or non-`.csv` extension. -/
def missingMsg : String := "Missing .csv extension"

/-- Diagnostic printed for a spreadsheet extension. -/
def convertMsg : String := "Please convert your Excel file to a .csv"

/-- The filename checks of `load_input_csv` (lines 180-197), applied to
the stripped user input: `some msg` means the program prints `msg` and
exits 1 before touching the file; `none` means the checks pass. -/
def checkFilename (fn : List Char) : Option String :=
  let lower := pyLower fn
  if '.' ∈ basename fn then
    if excelExts.any (fun e => endsWith lower e) then some convertMsg
    else if endsWith lower (".csv".toList) then none
    else some missingMsg
  else some missingMsg

/-- The environment one run of `main` interacts with: the token
endpoint's behaviour, the filename typed at the prompt, whether the file
exists in `data/`, and what `pd.read_csv` yields (each loaded row paired
with the remote outcome its validation request would meet). -/
structure Env where
  tokenOutcome : TokenOutcome
  filename : List Char
  fileExists : Bool
  csvLoad : Except String (List (Record × Outcome))

/-- Observable effects of one run of `main`: process exit code, whether
the input table was successfully read, how many validation results were
appended, how many pacing sleeps happened, and the rows written to the
output table (`none` = no output file written). -/
structure RunTrace where
  exitCode : Nat
  inputLoaded : Bool
  validationCalls : Nat
  sleeps : Nat
  output : Option (List ResultDict)
deriving Repr, DecidableEq

/-- The trace of a run that aborts before the batching loop. -/
def abortTrace : RunTrace :=
  { exitCode := 1, inputLoaded := false, validationCalls := 0,
    sleeps := 0, output := none }

/-- Lines 256-269 of `main`: an exception escaping the loop kills the
process (exit 1, nothing written); with results present, a zero
`is_valid` count exits 1 without writing, otherwise all rows are written
and the process ends with exit 0; with no results at all, `main` prints
and returns normally (exit 0). -/
def finalizeTrace (b : BatchResult) : RunTrace :=
  match b.err with
  | some _ =>
    { exitCode := 1, inputLoaded := true,
      validationCalls := b.results.length, sleeps := b.sleeps,
      output := none }
  | none =>
    if b.results.isEmpty then
      { exitCode := 0, inputLoaded := true, validationCalls := 0,
        sleeps := 0, output := none }
    else if (b.results.filter (fun d => d.is_valid)).length = 0 then
      { exitCode := 1, inputLoaded := true,
        validationCalls := b.results.length, sleeps := b.sleeps,
        output := none }
    else
      { exitCode := 0, inputLoaded := true,
        validationCalls := b.results.length, sleeps := b.sleeps,
        output := some b.results }

/-- `main` (lines 219-269).  Token failure exits 1 before the input
prompt; any `load_input_csv` failure (bad extension, missing file,
unreadable CSV) exits 1 before the loop; the loop runs with
`BATCH_SIZE = 2`; then the finalization of lines 256-269 runs. -/
def mainRun (env : Env) : RunTrace :=
  match get_usps_token env.tokenOutcome with
  | .error _ => abortTrace
  | .ok _ =>
    match checkFilename (pyStrip env.filename) with
    | some _ => abortTrace
    | none =>
      if env.fileExists = false then abortTrace
      else
        match env.csvLoad with
        | .error _ => abortTrace
        | .ok rows => finalizeTrace (runBatches 2 rows)

/-- Count of results with `is_valid` true:
`validated_df["is_valid"].sum()` (line 259). -/
def countValid (rs : List ResultDict) : Nat :=
  (rs.filter (fun d => d.is_valid)).length

/-! ### Helper lemmas -/

theorem toNat_ofNat_valid (n : Nat) (h : n.isValidChar) :
    (Char.ofNat n).toNat = n := by
  rw [Char.ofNat, dif_pos h]
  simp [Char.ofNatAux, Char.toNat, UInt32.toNat]

theorem toLower_eq_dot {c : Char} (h : c.toLower = '.') : c = '.' := by
  rw [Char.toLower] at h
  split at h
  · rename_i hc
    have hval : (c.toNat + 32).isValidChar := by
      constructor
      omega
    have hv := congrArg Char.toNat h
    rw [toNat_ofNat_valid _ hval] at hv
    have : ('.'.toNat) = 46 := by decide
    omega
  · exact h

theorem httpErrorStr_ne_empty (s : Nat) (reason url : String) :
    httpErrorStr s reason url ≠ "" := by
  intro h
  have hl := congrArg String.length h
  simp only [httpErrorStr, String.length_append] at hl
  have h10 : (" for url: " : String).length = 10 := by decide
  have h0 : ("" : String).length = 0 := by decide
  omega

theorem failureStr_ne_empty (f : RemoteFailure) (h : renderedNonempty f) :
    failureStr f ≠ "" := by
  cases f with
  | httpError s reason url => exact httpErrorStr_ne_empty s reason url
  | requestError msg => exact h
  | otherError msg => exact h

/-- Inversion: a returned dictionary is the one `validateOk` describes. -/
theorem validate_ok_inv (r : Record) (o : Outcome) (d : ResultDict)
    (h : validate r o = .ok d) : d = validateOk r o := by
  rcases r with ⟨k, s, c, t, p⟩
  cases k <;> cases s <;> cases c <;> cases t <;> cases p <;> cases o <;>
    simp_all [validate, validateOk]

theorem validateOk_KEY (r : Record) (o : Outcome) :
    (validateOk r o).KEY = r.KEY.getD "" := by
  cases o <;> rfl

/-! ### C1, C3, C4, C10: the single-record validator -/

/-- C1: for every input record (carrying its five keys) and every failure
class of the remote call, `validate_usps_address` does not raise: it
returns the dictionary with all five validated fields null, `full_zip4`
equal to the sentinel `"ERROR"`, `is_valid` false, and `error_message`
equal to the (non-empty) rendering of the exception. -/
theorem validate_failure_capture (r : Record) (h : wellFormed r)
    (f : RemoteFailure) (hf : renderedNonempty f) :
    validate r (.failure f) = .ok (errorDict r (failureStr f)) ∧
    (errorDict r (failureStr f)).validated_STREET = none ∧
    (errorDict r (failureStr f)).validated_CITY = none ∧
    (errorDict r (failureStr f)).validated_STATE = none ∧
    (errorDict r (failureStr f)).validated_ZIPCode = none ∧
    (errorDict r (failureStr f)).validated_ZIPPlus4 = none ∧
    (errorDict r (failureStr f)).full_zip4 = "ERROR" ∧
    (errorDict r (failureStr f)).is_valid = false ∧
    (errorDict r (failureStr f)).error_message = some (failureStr f) ∧
    failureStr f ≠ "" := by
  refine ⟨?_, rfl, rfl, rfl, rfl, rfl, rfl, rfl, rfl, failureStr_ne_empty f hf⟩
  rw [validate_eq_ok r _ h]
  rfl

/-- A sample well-formed input record. -/
def r0 : Record :=
  { KEY := some "1", STREET := some "123 Main St", CITY := some "Springfield",
    STATE := some "IL", POST_CODE := some "62704" }

theorem validate_failure_capture_witness :
    validate r0 (.failure (.requestError "Connection refused")) =
      .ok (errorDict r0 "Connection refused") ∧
    (errorDict r0 "Connection refused").full_zip4 = "ERROR" ∧
    (errorDict r0 "Connection refused").is_valid = false ∧
    (errorDict r0 "Connection refused").error_message =
      some "Connection refused" := by
  have h := validate_failure_capture r0 (by decide)
    (.requestError "Connection refused") (by decide)
  exact ⟨h.1, h.2.2.2.2.2.2.1, h.2.2.2.2.2.2.2.1, h.2.2.2.2.2.2.2.2.1⟩

/-- C3: a returned dictionary has `is_valid` true exactly when all four of
the validated street, city, state and ZIPCode fields are present and
non-empty. -/
theorem is_valid_iff_fields (r : Record) (o : Outcome) (d : ResultDict)
    (h : validate r o = .ok d) :
    d.is_valid = true ↔
      (truthy d.validated_STREET = true ∧ truthy d.validated_CITY = true ∧
       truthy d.validated_STATE = true ∧ truthy d.validated_ZIPCode = true) := by
  rw [validate_ok_inv r o d h]
  cases o with
  | success resp => simp [validateOk, successDict, Bool.and_assoc]
  | failure f => simp [validateOk, errorDict, truthy]

/-- A sample fully populated address object. -/
def addr0 : UspsAddress :=
  { streetAddress := some "123 MAIN ST", city := some "SPRINGFIELD",
    state := some "IL", ZIPCode := some "62704", ZIPPlus4 := some "1234" }

/-- A sample fully populated response. -/
def resp0 : UspsResponse := { address := some addr0 }

/-- A sample response with an empty address object. -/
def respEmpty : UspsResponse := { address := none }

theorem is_valid_iff_fields_witness :
    (successDict r0 resp0).is_valid = true ↔
      (truthy (successDict r0 resp0).validated_STREET = true ∧
       truthy (successDict r0 resp0).validated_CITY = true ∧
       truthy (successDict r0 resp0).validated_STATE = true ∧
       truthy (successDict r0 resp0).validated_ZIPCode = true) :=
  is_valid_iff_fields r0 (.success resp0) (successDict r0 resp0) rfl

/-- C4: `full_zip4` follows the ZIPCode/ZIPPlus4 rule on every success
path and is the sentinel `"ERROR"` on every failure path. -/
theorem full_zip4_rule (r : Record) (o : Outcome) (d : ResultDict)
    (h : validate r o = .ok d) :
    (∀ f, o = .failure f → d.full_zip4 = "ERROR") ∧
    (∀ resp, o = .success resp →
      d.full_zip4 =
        if truthy d.validated_ZIPCode = true ∧ truthy d.validated_ZIPPlus4 = true
        then d.validated_ZIPCode.getD "" ++ "-" ++ d.validated_ZIPPlus4.getD ""
        else if truthy d.validated_ZIPCode = true
        then d.validated_ZIPCode.getD "" else "N/A") := by
  rw [validate_ok_inv r o d h]
  constructor
  · rintro f rfl
    rfl
  · rintro resp rfl
    simp only [validateOk, successDict, fullZip4]
    rcases hb : truthy ((resp.address.getD emptyAddress).ZIPCode) <;>
      rcases hb2 : truthy ((resp.address.getD emptyAddress).ZIPPlus4) <;>
      simp [hb, hb2]

theorem full_zip4_rule_witness :
    (successDict r0 resp0).full_zip4 =
      if truthy (successDict r0 resp0).validated_ZIPCode = true ∧
         truthy (successDict r0 resp0).validated_ZIPPlus4 = true
      then (successDict r0 resp0).validated_ZIPCode.getD "" ++ "-" ++
           (successDict r0 resp0).validated_ZIPPlus4.getD ""
      else if truthy (successDict r0 resp0).validated_ZIPCode = true
      then (successDict r0 resp0).validated_ZIPCode.getD "" else "N/A" :=
  (full_zip4_rule r0 (.success resp0) (successDict r0 resp0) rfl).2
    resp0 rfl

/-- A record missing its `KEY` entry. -/
def rNoKey : Record :=
  { KEY := none, STREET := some "123 Main St", CITY := some "Springfield",
    STATE := some "IL", POST_CODE := some "62704" }

/-- C10: `validate_usps_address` returns a result for every remote
outcome exactly on records carrying all five keys; a record missing one
of `KEY`, `STREET`, `CITY`, `STATE`, `POST_CODE` makes it raise to the
caller (for such a record every branch, success or error capture, indexes
the missing key). -/
theorem validate_totality_precondition :
    (∀ (r : Record) (o : Outcome), wellFormed r →
      validate r o = .ok (validateOk r o)) ∧
    (∀ (r : Record) (o : Outcome), ¬ wellFormed r →
      ∃ e, validate r o = .error e) := by
  constructor
  · exact fun r o h => validate_eq_ok r o h
  · intro r o h
    rcases r with ⟨k, s, c, t, p⟩
    cases k <;> cases s <;> cases c <;> cases t <;> cases p <;>
      try exact ⟨_, rfl⟩
    exact absurd ⟨rfl, rfl, rfl, rfl, rfl⟩ h

theorem validate_totality_precondition_witness :
    (validate rNoKey (.success respEmpty)).isOk = false ∧
    (validate r0 (.success respEmpty)).isOk = true := by
  obtain ⟨e, he⟩ :=
    validate_totality_precondition.2 rNoKey (.success respEmpty) (by decide)
  have hok :=
    validate_totality_precondition.1 r0 (.success respEmpty) (by decide)
  rw [he, hok]
  exact ⟨rfl, rfl⟩

/-! ### C2, C5: the batch orchestrator -/

theorem processBatch_wf (l : List (Record × Outcome))
    (h : ∀ p ∈ l, wellFormed p.1) :
    processBatch l = (l.map (fun p => validateOk p.1 p.2), none) := by
  induction l with
  | nil => rfl
  | cons p rest ih =>
    have hp := h p (List.mem_cons_self _ _)
    have hrest := fun q hq => h q (List.mem_cons_of_mem _ hq)
    simp [processBatch, validate_eq_ok p.1 p.2 hp, ih hrest]

/-- On well-formed rows the loop raises nothing, returns one result per
row in order, processes the groups `chunksGo` describes, and sleeps once
per non-final group. -/
theorem runGo_spec (B' : Nat) (rows : List (Record × Outcome))
    (h : ∀ p ∈ rows, wellFormed p.1) :
    (runGo B' rows).err = none ∧
    (runGo B' rows).results = rows.map (fun p => validateOk p.1 p.2) ∧
    (runGo B' rows).groupSizes = (chunksGo B' rows).map List.length ∧
    (runGo B' rows).sleeps = (chunksGo B' rows).length - 1 := by
  match rows with
  | [] => simp [runGo, chunksGo]
  | p :: rest =>
    have hbatch : ∀ q ∈ p :: rest.take B', wellFormed q.1 := by
      intro q hq
      rcases List.mem_cons.mp hq with hq | hq
      · exact hq ▸ h p (List.mem_cons_self _ _)
      · exact h q (List.mem_cons_of_mem _ (List.mem_of_mem_take hq))
    have hrest : ∀ q ∈ rest.drop B', wellFormed q.1 := fun q hq =>
      h q (List.mem_cons_of_mem _ (List.mem_of_mem_drop hq))
    have ih := runGo_spec B' (rest.drop B') hrest
    obtain ⟨ih1, ih2, ih3, ih4⟩ := ih
    rw [runGo, processBatch_wf _ hbatch]
    refine ⟨ih1, ?_, ?_, ?_⟩
    · simp only [ih2]
      rw [← List.map_append]
      congr 1
      exact congrArg (p :: ·) (List.take_append_drop B' rest)
    · rw [chunksGo]
      simp [ih3]
    · rw [chunksGo]
      rcases hd : rest.drop B' with _ | ⟨q, qs⟩
      · rw [hd] at ih4
        simp [chunksGo] at ih4 ⊢
        simpa using ih4
      · rw [hd] at ih4
        rw [chunksGo] at ih4 ⊢
        simp only [List.isEmpty_cons, List.length_cons]
        simp at ih4 ⊢
        omega
termination_by rows.length
decreasing_by
  simp only [List.length_drop, List.length_cons]
  omega

theorem chunksGo_flatten (B' : Nat) (l : List α) : (chunksGo B' l).flatten = l := by
  match l with
  | [] => simp [chunksGo]
  | x :: xs =>
    rw [chunksGo]
    simp only [List.flatten_cons, chunksGo_flatten B' (xs.drop B')]
    exact congrArg (x :: ·) (List.take_append_drop B' xs)
termination_by l.length
decreasing_by
  simp only [List.length_drop, List.length_cons]
  omega

theorem chunksGo_size_le (B' : Nat) (l : List α) :
    ∀ g ∈ chunksGo B' l, g.length ≤ B' + 1 := by
  match l with
  | [] => simp [chunksGo]
  | x :: xs =>
    rw [chunksGo]
    intro g hg
    rcases List.mem_cons.mp hg with hg | hg
    · subst hg
      simp only [List.length_cons, List.length_take]
      omega
    · exact chunksGo_size_le B' (xs.drop B') g hg
termination_by l.length
decreasing_by
  simp only [List.length_drop, List.length_cons]
  omega

/-- Test fixture: a well-formed record with the given KEY. -/
def mkRec (k : String) : Record :=
  { KEY := some k, STREET := some "123 Main St", CITY := some "Springfield",
    STATE := some "IL", POST_CODE := some "62704" }

/-- Test fixture: three records with mixed outcomes. -/
def rows3 : List (Record × Outcome) :=
  [(mkRec "1", .failure (.requestError "Connection refused")),
   (mkRec "2", .success resp0),
   (mkRec "3", .success respEmpty)]

/-- C2: on any input sequence of well-formed records the batching loop of
`main` raises nothing and appends exactly one result per input record, in
input order (the i-th result is what `validate_usps_address` returns for
the i-th record, and the KEY column echoes the input KEYs in order),
however many records fail validation. -/
theorem batch_one_to_one (rows : List (Record × Outcome))
    (h : ∀ p ∈ rows, wellFormed p.1) :
    (runBatches 2 rows).err = none ∧
    (runBatches 2 rows).results.length = rows.length ∧
    (∀ i (hi : i < rows.length) (hi2 : i < (runBatches 2 rows).results.length),
      validate (rows.get ⟨i, hi⟩).1 (rows.get ⟨i, hi⟩).2 =
        .ok ((runBatches 2 rows).results.get ⟨i, hi2⟩)) ∧
    (runBatches 2 rows).results.map ResultDict.KEY =
      rows.map (fun p => p.1.KEY.getD "") := by
  obtain ⟨h1, h2, h3, h4⟩ := runGo_spec 1 rows h
  have hrb : runBatches 2 rows = runGo 1 rows := rfl
  rw [hrb]
  refine ⟨h1, ?_, ?_, ?_⟩
  · rw [h2, List.length_map]
  · intro i hi hi2
    have hmem : rows.get ⟨i, hi⟩ ∈ rows := List.get_mem rows i hi
    revert hi2
    rw [h2]
    intro hi2
    rw [validate_eq_ok _ _ (h _ hmem)]
    exact congrArg Except.ok (by simp)
  · rw [h2, List.map_map]
    exact List.map_congr_left (fun p _ => validateOk_KEY p.1 p.2)

theorem batch_one_to_one_witness :
    (runBatches 2 rows3).err = none ∧
    (runBatches 2 rows3).results.length = 3 ∧
    (runBatches 2 rows3).results.map ResultDict.KEY = ["1", "2", "3"] := by
  have h := batch_one_to_one rows3 (by decide)
  exact ⟨h.1, h.2.1.trans (by rfl), h.2.2.2.trans (by rfl)⟩

/-- Test fixture: five records, each validating successfully. -/
def rows5 : List (Record × Outcome) :=
  [(mkRec "1", .success resp0), (mkRec "2", .success resp0),
   (mkRec "3", .success resp0), (mkRec "4", .success resp0),
   (mkRec "5", .success resp0)]

/-- C5: the orchestrator processes the input as the contiguous in-order
groups `chunksGo` describes (their concatenation is the input and each
has at most `batch_size` records), records one result per input row, and
sleeps once per non-final group; with `batch_size = 2` and 5 records it
processes groups of sizes [2, 2, 1] and sleeps exactly twice. -/
theorem orchestrator_batching (rows : List (Record × Outcome))
    (h : ∀ p ∈ rows, wellFormed p.1) (B' : Nat) :
    (chunksGo B' rows).flatten = rows ∧
    (∀ g ∈ chunksGo B' rows, g.length ≤ B' + 1) ∧
    (runBatches (B' + 1) rows).groupSizes = (chunksGo B' rows).map List.length ∧
    (runBatches (B' + 1) rows).results.length = rows.length ∧
    (runBatches (B' + 1) rows).sleeps = (chunksGo B' rows).length - 1 ∧
    (B' = 1 → rows.length = 5 →
      (runBatches 2 rows).groupSizes = [2, 2, 1] ∧
      (runBatches 2 rows).sleeps = 2) := by
  obtain ⟨h1, h2, h3, h4⟩ := runGo_spec B' rows h
  have hrb : runBatches (B' + 1) rows = runGo B' rows := rfl
  refine ⟨chunksGo_flatten B' rows, chunksGo_size_le B' rows,
    hrb ▸ h3, ?_, hrb ▸ h4, ?_⟩
  · rw [hrb, h2, List.length_map]
  · rintro rfl h5
    rcases rows with _ | ⟨a, _ | ⟨b, _ | ⟨c, _ | ⟨d, _ | ⟨e, rest⟩⟩⟩⟩⟩ <;>
      simp at h5
    subst h5
    have hrb2 : runBatches 2 [a, b, c, d, e] = runGo 1 [a, b, c, d, e] := rfl
    rw [hrb2, h3, h4]
    simp [chunksGo]

theorem orchestrator_batching_witness :
    (runBatches 2 rows5).groupSizes = [2, 2, 1] ∧
    (runBatches 2 rows5).sleeps = 2 :=
  (orchestrator_batching rows5 (by decide) 1).2.2.2.2.2 rfl rfl

/-! ### C6: token acquisition -/

/-- The failure condition exactly as the claim states it: a non-success
HTTP status, an unparseable body, or a response containing no
access-token field. -/
def claimedTokenFailure : TokenOutcome → Prop
  | .networkError _ => False
  | .response status _ _ body =>
    (400 ≤ status ∧ status ≤ 599) ∨
      (match body with
       | .malformed _ => True
       | .parsed tok => tok = none)

instance (o : TokenOutcome) : Decidable (claimedTokenFailure o) := by
  rcases o with _ | ⟨s, re, u, _ | t⟩ <;>
    (unfold claimedTokenFailure; infer_instance)

/-- The failure condition the code implements: the network call itself
failing also raises, and a present-but-empty access token is rejected by
the `if not access_token` test (line 48) just like an absent one. -/
def tokenFailure : TokenOutcome → Prop
  | .networkError _ => True
  | .response status _ _ body =>
    (400 ≤ status ∧ status ≤ 599) ∨
      (match body with
       | .malformed _ => True
       | .parsed tok => truthy tok = false)

/-- A 200 response whose parsed body carries `access_token` equal to the
empty string: the field is present, the status is a success, and the body
parses, yet `get_usps_token` raises `ValueError`. -/
def tokenCx : TokenOutcome :=
  .response 200 "OK" "https://apis.usps.com/oauth2/v3/token" (.parsed (some ""))

/-- Counterexample to C6 as stated: `get_usps_token` fails on `tokenCx`
although none of the claim's three failure conditions holds. -/
theorem token_exactly_counterexample :
    (get_usps_token tokenCx).isOk = false ∧ ¬ claimedTokenFailure tokenCx := by
  constructor
  · rfl
  · intro hc
    rcases hc with ⟨h4, _⟩ | h
    · omega
    · simp [claimedTokenFailure] at h

/-- C6 (amended): token acquisition fails exactly when the remote call
itself fails, returns an error status (4xx/5xx), has an unparseable body,
or carries an absent or empty access-token field; and any such failure
makes `main` exit 1 before the input table is loaded and before any
address-validation call or sleep. -/
theorem token_failure_aborts :
    (∀ o, (get_usps_token o).isOk = false ↔ tokenFailure o) ∧
    (∀ env : Env, (get_usps_token env.tokenOutcome).isOk = false →
      mainRun env = abortTrace) := by
  constructor
  · intro o
    rcases o with m | ⟨s, re, u, b⟩
    · simp [get_usps_token, tokenFailure, Except.isOk, Except.toBool]
    · by_cases hs : 400 ≤ s ∧ s ≤ 599
      · simp [get_usps_token, tokenFailure, hs, Except.isOk, Except.toBool]
      · rcases b with m | t
        · simp [get_usps_token, tokenFailure, hs, Except.isOk, Except.toBool]
        · rcases ht : truthy t <;>
            simp [get_usps_token, tokenFailure, hs, ht, Except.isOk,
              Except.toBool]
  · intro env h
    unfold mainRun
    rcases hg : get_usps_token env.tokenOutcome with e | a
    · rfl
    · rw [hg] at h
      simp [Except.isOk, Except.toBool] at h

/-- A benign environment whose token call fails with a network error. -/
def envTokenFail : Env :=
  { tokenOutcome := .networkError "Max retries exceeded"
    filename := "addresses.csv".toList
    fileExists := true
    csvLoad := .ok [] }

theorem token_failure_aborts_witness :
    (get_usps_token (.networkError "Max retries exceeded")).isOk = false ∧
    mainRun envTokenFail = abortTrace := by
  have h1 : (get_usps_token (.networkError "Max retries exceeded")).isOk
      = false := (token_failure_aborts.1 _).mpr trivial
  exact ⟨h1, token_failure_aborts.2 envTokenFail h1⟩

/-! ### C7, C9: finalization and exit codes -/

/-- A run that acquires its token and loads its CSV reaches finalization
on the loop's outcome. -/
theorem mainRun_loaded (env : Env) (rows : List (Record × Outcome))
    (htok : (get_usps_token env.tokenOutcome).isOk = true)
    (hfn : checkFilename (pyStrip env.filename) = none)
    (hex : env.fileExists = true)
    (hcsv : env.csvLoad = .ok rows) :
    mainRun env = finalizeTrace (runBatches 2 rows) := by
  unfold mainRun
  rcases hg : get_usps_token env.tokenOutcome with e | a
  · rw [hg] at htok
    simp [Except.isOk, Except.toBool] at htok
  · rw [hfn, hex, hcsv]
    rfl

/-- C7: once the run reaches finalization with a non-empty record set, a
zero count of valid results exits 1 with no output table, and a positive
count writes all N rows (valid and invalid) and exits 0. -/
theorem finalize_exit_codes (env : Env) (rows : List (Record × Outcome))
    (htok : (get_usps_token env.tokenOutcome).isOk = true)
    (hfn : checkFilename (pyStrip env.filename) = none)
    (hex : env.fileExists = true)
    (hcsv : env.csvLoad = .ok rows)
    (hwf : ∀ p ∈ rows, wellFormed p.1)
    (hne : rows ≠ []) :
    (countValid (runBatches 2 rows).results = 0 →
      (mainRun env).exitCode = 1 ∧ (mainRun env).output = none) ∧
    (countValid (runBatches 2 rows).results ≠ 0 →
      (mainRun env).exitCode = 0 ∧
      (mainRun env).output = some (runBatches 2 rows).results ∧
      (runBatches 2 rows).results.length = rows.length) := by
  obtain ⟨h1, h2, _, _⟩ := runGo_spec 1 rows hwf
  have hrb : runBatches 2 rows = runGo 1 rows := rfl
  have hlen : (runBatches 2 rows).results.length = rows.length := by
    rw [hrb, h2, List.length_map]
  have hnonempty : (runBatches 2 rows).results.isEmpty = false := by
    rcases hr : (runBatches 2 rows).results with _ | ⟨d, ds⟩
    · rw [hr] at hlen
      exact absurd (List.length_eq_zero.mp hlen.symm) hne
    · rfl
  have herr : (runBatches 2 rows).err = none := by
    rw [hrb]
    exact h1
  rw [mainRun_loaded env rows htok hfn hex hcsv]
  unfold finalizeTrace
  rw [herr, hnonempty]
  rw [if_neg (by decide)]
  unfold countValid
  constructor
  · intro hzero
    rw [if_pos hzero]
    exact ⟨rfl, rfl⟩
  · intro hpos
    rw [if_neg hpos]
    exact ⟨rfl, rfl, hlen⟩

/-- An environment reaching finalization with one invalid record. -/
def envOneInvalid : Env :=
  { tokenOutcome := .response 200 "OK" "url" (.parsed (some "token"))
    filename := "addresses.csv".toList
    fileExists := true
    csvLoad := .ok [(mkRec "1", .failure (.requestError "Connection refused"))] }

theorem finalize_exit_codes_witness :
    (mainRun envOneInvalid).exitCode = 1 ∧
    (mainRun envOneInvalid).output = none := by
  have hz : countValid
      (runBatches 2
        [(mkRec "1", .failure (.requestError "Connection refused"))]).results
      = 0 := by
    have hr : runBatches 2
        [(mkRec "1", .failure (.requestError "Connection refused"))] =
        runGo 1 [(mkRec "1", .failure (.requestError "Connection refused"))] :=
      rfl
    rw [hr]
    simp [runGo, processBatch, validate, mkRec, countValid, errorDict]
  exact (finalize_exit_codes envOneInvalid
    [(mkRec "1", .failure (.requestError "Connection refused"))]
    rfl (by decide) rfl rfl (by decide) (by decide)).1 hz

/-- C9: with an empty input the run makes no validation call, never
sleeps, writes no output table, and exits 0 (the all-invalid exit-1 rule
is skipped because `if all_validated_results:` is false). -/
theorem empty_input_run (env : Env)
    (htok : (get_usps_token env.tokenOutcome).isOk = true)
    (hfn : checkFilename (pyStrip env.filename) = none)
    (hex : env.fileExists = true)
    (hcsv : env.csvLoad = .ok []) :
    mainRun env =
      { exitCode := 0, inputLoaded := true, validationCalls := 0,
        sleeps := 0, output := none } := by
  rw [mainRun_loaded env [] htok hfn hex hcsv]
  have hr : runBatches 2 ([] : List (Record × Outcome)) = runGo 1 [] := rfl
  have hbase : runGo 1 ([] : List (Record × Outcome)) =
      { results := [], groupSizes := [], sleeps := 0, err := none } := by
    simp [runGo]
  rw [finalizeTrace, hr, hbase]
  rfl

/-- An environment with a good token, good filename, and an empty CSV. -/
def envEmpty : Env :=
  { tokenOutcome := .response 200 "OK" "url" (.parsed (some "token"))
    filename := "addresses.csv".toList
    fileExists := true
    csvLoad := .ok [] }

theorem empty_input_run_witness :
    mainRun envEmpty =
      { exitCode := 0, inputLoaded := true, validationCalls := 0,
        sleeps := 0, output := none } :=
  empty_input_run envEmpty rfl (by decide) rfl rfl

/-! ### C8: input filename validation -/

theorem endsWith_iff (l e : List Char) :
    endsWith l e = true ↔ ∃ t, l = t ++ e := by
  constructor
  · intro h
    have heq : e = l.drop (l.length - e.length) := by
      simpa [endsWith] using h
    refine ⟨l.take (l.length - e.length), ?_⟩
    conv_lhs => rw [← List.take_append_drop (l.length - e.length) l]
    rw [← heq]
  · rintro ⟨t, rfl⟩
    unfold endsWith
    have hlen : (t ++ e).length - e.length = t.length := by simp
    rw [hlen, List.drop_left]
    simp

theorem prefix_takeWhile (p l : List Char) (hp : p <+: l)
    (hc : ∀ c ∈ p, c ≠ '/') :
    p <+: l.takeWhile (fun c => c != '/') := by
  induction p generalizing l with
  | nil => exact List.nil_prefix
  | cons a p' ih =>
    rcases l with _ | ⟨b, l'⟩
    · exact absurd hp (by simp)
    · obtain ⟨rfl, hp'⟩ := List.cons_prefix_cons.mp hp
      have ha : (a != '/') = true := by
        simpa using hc a (List.mem_cons_self _ _)
      rw [List.takeWhile_cons, ha]
      simp only [if_true]
      exact List.cons_prefix_cons.mpr
        ⟨rfl, ih l' hp' (fun c hcc => hc c (List.mem_cons_of_mem _ hcc))⟩

/-- If the lowered filename ends with an extension containing a dot and
no slash, the original filename's basename contains a dot. -/
theorem dot_in_basename (fn e : List Char) (hdot : '.' ∈ e)
    (hsl : '/' ∉ e) (hsuf : endsWith (pyLower fn) e = true) :
    '.' ∈ basename fn := by
  obtain ⟨t, ht⟩ := (endsWith_iff _ _).mp hsuf
  have hrev : fn.reverse.map Char.toLower = e.reverse ++ t.reverse := by
    have h0 : (pyLower fn).reverse = (t ++ e).reverse := by rw [ht]
    rw [List.reverse_append] at h0
    rw [← h0, pyLower, List.map_reverse]
  have hr1map : (fn.reverse.take e.length).map Char.toLower = e.reverse := by
    have h1 : (fn.reverse.map Char.toLower).take e.length = e.reverse := by
      rw [hrev]
      have h2 : e.length = e.reverse.length := (List.length_reverse e).symm
      rw [h2, List.take_left]
    rw [← h1, List.map_take]
  have hnos : ∀ c ∈ fn.reverse.take e.length, c ≠ '/' := by
    intro c hcmem hceq
    subst hceq
    have hm : Char.toLower '/' ∈
        (fn.reverse.take e.length).map Char.toLower :=
      List.mem_map_of_mem _ hcmem
    rw [hr1map] at hm
    have h47 : Char.toLower '/' = '/' := by decide
    rw [h47] at hm
    exact hsl (List.mem_reverse.mp hm)
  have hdot1 : '.' ∈ fn.reverse.take e.length := by
    have hm : '.' ∈ (fn.reverse.take e.length).map Char.toLower := by
      rw [hr1map]
      exact List.mem_reverse.mpr hdot
    obtain ⟨c, hcmem, hceq⟩ := List.mem_map.mp hm
    rw [← toLower_eq_dot hceq]
    exact hcmem
  have hpre0 : fn.reverse.take e.length <+: fn.reverse :=
    List.take_prefix _ _
  have hpre2 : fn.reverse.take e.length <+:
      fn.reverse.takeWhile (fun c => c != '/') :=
    prefix_takeWhile _ _ hpre0 hnos
  exact List.mem_reverse.mpr (hpre2.subset hdot1)

/-- C8: a filename whose lowered form carries any of the five spreadsheet
extensions is rejected with the corrective message; a filename whose
basename has no dot, or whose extension is not `.csv`, is rejected with
the missing-extension message; and any rejection makes the run exit 1
without touching the file (the trace is the same whatever
`fileExists`/`csvLoad` hold). -/
theorem filename_validation (fn : List Char) :
    (excelExts.any (fun e => endsWith (pyLower fn) e) = true →
       checkFilename fn = some convertMsg) ∧
    ('.' ∉ basename fn → checkFilename fn = some missingMsg) ∧
    (excelExts.any (fun e => endsWith (pyLower fn) e) = false →
       endsWith (pyLower fn) (".csv".toList) = false →
       checkFilename fn = some missingMsg) ∧
    (∀ env : Env, ∀ m, checkFilename (pyStrip env.filename) = some m →
       mainRun env = abortTrace) := by
  refine ⟨?_, ?_, ?_, ?_⟩
  · intro h
    have hdotb : '.' ∈ basename fn := by
      obtain ⟨e, hemem, hesuf⟩ := List.any_eq_true.mp h
      simp only [excelExts, List.mem_cons, List.not_mem_nil, or_false] at hemem
      rcases hemem with rfl | rfl | rfl | rfl | rfl <;>
        exact dot_in_basename fn _ (by decide) (by decide) hesuf
    simp only [checkFilename]
    rw [if_pos hdotb, if_pos h]
  · intro h
    simp only [checkFilename]
    rw [if_neg h]
  · intro h1 h2
    have h2' : endsWith (pyLower fn) ['.', 'c', 's', 'v'] = false := by
      simpa using h2
    simp only [checkFilename]
    by_cases hd : '.' ∈ basename fn
    · rw [if_pos hd, if_neg (by simp [h1]), if_neg (by simp [h2'])]
    · rw [if_neg hd]
  · intro env m h
    unfold mainRun
    rcases hg : get_usps_token env.tokenOutcome with e2 | a
    · rfl
    · rw [h]

theorem filename_validation_witness :
    checkFilename ("addresses.xlsx".toList) = some convertMsg :=
  (filename_validation ("addresses.xlsx".toList)).1 (by decide)
